import Mathlib

/-!
Shallow embedding of the EDA application in src/app2.py.

The application is a linear pipeline over a pandas DataFrame:
load_data (CSV / Excel ingestion), display_basic_info (per-column
profile and summary statistics), plot_numeric_data and
plot_categorical_data (per-column distribution views) and
plot_correlation_matrix (Pearson correlation over the numeric columns).

Machine floats are modelled by PFloat (a rational together with the
IEEE-754 special values nan and signed infinity); pandas dtypes by the
Dtype enumeration; a DataFrame by Table, an ordered list of named,
dtype-tagged columns.  Behavior that the source delegates to pandas
(read_csv dtype inference, describe's default column selection,
value_counts ordering, nunique, isnull) is embedded with pandas'
documented semantics, since the source calls those routines directly.
-/

/-- The pandas dtypes relevant to the app: the two numeric dtypes the
plotting code selects, the two categorical dtypes it selects, and the
dtypes (bool, datetime64) that fall in neither selection list. -/
inductive Dtype where
  | int64
  | float64
  | boolDtype
  | datetime64
  | object
  | category
deriving DecidableEq, Repr

/-- A cell of a DataFrame: a numeric value, a text value, a boolean, or
a missing value (NaN / None, the thing df.isnull() detects). -/
inductive Value where
  | num (q : ℚ)
  | str (s : String)
  | boolV (b : Bool)
  | missing
deriving DecidableEq, Repr

/-- One named, dtype-tagged column of a DataFrame. -/
structure Column where
  name : String
  dtype : Dtype
  cells : List Value
deriving DecidableEq, Repr

/-- A pandas DataFrame: an ordered list of columns. -/
structure Table where
  columns : List Column
deriving DecidableEq, Repr

/-- len(df): the row count, the length of any column (0 for a table
with no columns). -/
def Table.nrows (df : Table) : ℕ :=
  match df.columns with
  | [] => 0
  | c :: _ => c.cells.length

/-- All columns share one row count (the DataFrame shape invariant). -/
def Table.wf (df : Table) : Prop :=
  ∀ c ∈ df.columns, c.cells.length = df.nrows

/-- df.select_dtypes(include=ds): the columns whose dtype is in ds,
in column order. -/
def select_dtypes (df : Table) (ds : List Dtype) : List Column :=
  df.columns.filter (fun c => c.dtype ∈ ds)

/-- The numeric-column selection df.select_dtypes(include=['float64','int64'])
used by plot_numeric_data (line 67) and plot_correlation_matrix (line 100). -/
def numeric_columns (df : Table) : List Column :=
  select_dtypes df [Dtype.float64, Dtype.int64]

/-- The categorical-column selection df.select_dtypes(include=['object','category'])
used by plot_categorical_data (line 83). -/
def categorical_columns (df : Table) : List Column :=
  select_dtypes df [Dtype.object, Dtype.category]

/- ----------------------------------------------------------------
String primitives (executable models of the Python / pandas string
operations the source uses, written over the character list of the
string so that they reduce on concrete inputs)
---------------------------------------------------------------- -/

/-- Python str.endswith: the last characters of s spell p. -/
def strEndsWith (s p : String) : Bool :=
  decide (s.data.reverse.take p.data.length = p.data.reverse)

/-- The pieces of a character list split at every dot (str.split('.')):
one piece more than there are dots, each dot-free, in order. -/
def splitOnDot : List Char → List (List Char)
  | [] => [[]]
  | c :: cs =>
    let r := splitOnDot cs
    if c = ('.') then [] :: r
    else
      match r with
      | h :: t => (c :: h) :: t
      | [] => [[c]]

/- ----------------------------------------------------------------
Loader (load_data, src/app2.py lines 23-39)
---------------------------------------------------------------- -/

/-- The uploaded file as the Loader sees it: its declared name, the
result of attempting pd.read_csv on its bytes, and the result of
attempting pd.ExcelFile on its bytes (sheet names with their parsed
tables); a read attempt that would raise is an error value carrying
the exception text. -/
structure UploadedFile where
  name : String
  csvRead : Except String Table
  xlsxRead : Except String (List (String × Table))

/-- What a call to load_data leaves behind: the returned pair
(df, sheet_names) plus the message passed to st.error, if any. -/
structure LoadOutcome where
  df : Option Table
  sheetNames : Option (List String)
  errorMsg : Option String
deriving DecidableEq, Repr

/-- load_data (src/app2.py lines 23-39).  A None file returns (None, None).
A .csv name parses directly into a table.  A .xlsx name enumerates the
sheets: exactly one sheet is parsed immediately, several sheets return
the ordered name list with no table.  Any exception during reading is
caught, reported via st.error and turned into (None, None).  A name
matching neither extension falls through both branches and returns
(None, None) with no message. -/
def load_data : Option UploadedFile → LoadOutcome
  | none => ⟨none, none, none⟩
  | some file =>
    if strEndsWith file.name (".csv") then
      match file.csvRead with
      | Except.ok df => ⟨some df, none, none⟩
      | Except.error e => ⟨none, none, some (("Error loading file: ") ++ e)⟩
    else if strEndsWith file.name (".xlsx") then
      match file.xlsxRead with
      | Except.ok sheets =>
        if sheets.length = 1 then
          ⟨some (sheets.headD (("") , ⟨[]⟩)).2, none, none⟩
        else
          ⟨none, some (sheets.map (fun s => s.1)), none⟩
      | Except.error e => ⟨none, none, some (("Error loading file: ") ++ e)⟩
    else ⟨none, none, none⟩

/- ----------------------------------------------------------------
Profiler (display_basic_info, src/app2.py lines 42-63)
---------------------------------------------------------------- -/

/-- A machine float as numpy produces it here: a finite value, NaN, or
a signed infinity. -/
inductive PFloat where
  | val (q : ℚ)
  | nan
  | inf
  | ninf
deriving DecidableEq, Repr

/-- Float division with numpy semantics: 0/0 is NaN, k/0 is a signed
infinity for k nonzero, NaN propagates. -/
def PFloat.fdiv : PFloat → PFloat → PFloat
  | val a, val b =>
    if b = 0 then (if a = 0 then nan else if 0 < a then inf else ninf)
    else val (a / b)
  | nan, _ => nan
  | _, nan => nan
  | inf, val b => if 0 ≤ b then inf else ninf
  | ninf, val b => if 0 ≤ b then ninf else inf
  | val _, inf => val 0
  | val _, ninf => val 0
  | _, _ => nan

/-- Float multiplication: NaN propagates; infinity times zero is NaN. -/
def PFloat.fmul : PFloat → PFloat → PFloat
  | val a, val b => val (a * b)
  | nan, _ => nan
  | _, nan => nan
  | inf, val b => if b = 0 then nan else if 0 < b then inf else ninf
  | val a, inf => if a = 0 then nan else if 0 < a then inf else ninf
  | ninf, val b => if b = 0 then nan else if 0 < b then ninf else inf
  | val a, ninf => if a = 0 then nan else if 0 < a then ninf else inf
  | inf, inf => inf
  | inf, ninf => ninf
  | ninf, inf => ninf
  | ninf, ninf => inf

/-- Whether a cell is detected by df.isnull(). -/
def Value.isMissing : Value → Bool
  | Value.missing => true
  | _ => false

/-- df.isnull().sum() for one column: the number of missing cells. -/
def missingCount (c : Column) : ℕ :=
  c.cells.countP (fun v => v.isMissing)

/-- (df.isnull().sum() / len(df)) * 100 for one column (line 51):
float division of the missing count by the row count, times 100,
with no zero-row guard. -/
def missingPct (m n : ℕ) : PFloat :=
  PFloat.fmul (PFloat.fdiv (PFloat.val m) (PFloat.val n)) (PFloat.val 100)

/-- One row of the per-column table built at lines 47-52. -/
structure ColumnProfile where
  name : String
  dtype : Dtype
  missingValues : ℕ
  missingPctVal : PFloat
deriving DecidableEq, Repr

/-- The profile row for one column of df. -/
def profileOf (df : Table) (c : Column) : ColumnProfile :=
  ⟨c.name, c.dtype, missingCount c, missingPct (missingCount c) df.nrows⟩

/-- The per-column profile table of display_basic_info (lines 47-52):
one row per column of df, in column order. -/
def display_basic_info (df : Table) : List ColumnProfile :=
  df.columns.map (profileOf df)

/-- Whether a dtype is one of the two numeric dtypes. -/
def Dtype.isNumeric : Dtype → Bool
  | Dtype.int64 => true
  | Dtype.float64 => true
  | _ => false

/-- df.describe() (line 63): the columns the summary statistics cover.
Pandas' default selection takes the numeric columns when at least one
exists, and falls back to all columns when the frame has no numeric
column. -/
def describe (df : Table) : List Column :=
  if numeric_columns df = [] then df.columns else numeric_columns df

/- ----------------------------------------------------------------
CSV ingestion and dtype inference (pd.read_csv at line 27)
---------------------------------------------------------------- -/

/-- The characters of a numeric literal with one leading sign removed,
if present. -/
def stripSign (l : List Char) : List Char :=
  match l with
  | c :: cs => if c = ('-') ∨ c = ('+') then cs else c :: cs
  | [] => []

/-- Whether a raw CSV cell parses as an integer literal: an optional
sign followed by one or more digits. -/
def isIntLit (s : String) : Bool :=
  let t := stripSign s.data
  (!t.isEmpty) && t.all Char.isDigit

/-- Whether a raw CSV cell parses as a number: an integer literal, or
an optional sign with digits around one decimal point (at least one
digit overall).  Exponent and inf/nan spellings are not modelled. -/
def isFloatLit (s : String) : Bool :=
  isIntLit s ||
    (match splitOnDot (stripSign s.data) with
     | [a, b] => (!(a ++ b).isEmpty) && (a ++ b).all Char.isDigit
     | _ => false)

/-- Whether a raw CSV cell is one of the boolean spellings pandas
recognizes. -/
def isBoolLit (s : String) : Bool :=
  decide (s = ("True") ∨ s = ("False") ∨ s = ("TRUE") ∨ s = ("FALSE"))

/-- pd.read_csv dtype inference for one column of raw cells (none is
an empty cell, read as NaN): all integer literals with no missing cell
gives int64; all non-missing cells numeric literals (missing allowed,
including the all-missing column) gives float64; all boolean literals
with no missing cell gives bool; anything else, including a zero-row
column, gives object. -/
def inferDtype (cells : List (Option String)) : Dtype :=
  if cells.isEmpty then Dtype.object
  else
    let nm := cells.filterMap id
    if nm.all isIntLit && cells.all Option.isSome then Dtype.int64
    else if nm.all isFloatLit then Dtype.float64
    else if nm.all isBoolLit && cells.all Option.isSome then Dtype.boolDtype
    else Dtype.object

/-- The natural number denoted by a digit string. -/
def digitsToNat (l : List Char) : ℕ :=
  l.foldl (fun acc c => 10 * acc + (c.toNat - 48)) 0

/-- The rational denoted by a decimal literal (sign, digits, optional
fraction). -/
def parseQ (s : String) : ℚ :=
  let sign : ℚ := if s.data.headD (' ') = ('-') then -1 else 1
  match splitOnDot (stripSign s.data) with
  | [a] => sign * digitsToNat a
  | [a, b] => sign * (digitsToNat a + (digitsToNat b : ℚ) / (10 ^ b.length))
  | _ => 0

/-- Materialize one raw cell at the column's inferred dtype. -/
def parseCell (d : Dtype) (cell : Option String) : Value :=
  match cell, d with
  | none, _ => Value.missing
  | some s, Dtype.int64 => Value.num (parseQ s)
  | some s, Dtype.float64 => Value.num (parseQ s)
  | some s, Dtype.boolDtype => Value.boolV (s.data.headD (' ') = ('T') ∨ s.data.headD (' ') = ('t'))
  | some s, _ => Value.str s

/-- One CSV column after type inference. -/
def csvColumn (n : String) (cells : List (Option String)) : Column :=
  ⟨n, inferDtype cells, cells.map (parseCell (inferDtype cells))⟩

/-- pd.read_csv (line 27): infer each column's dtype and materialize
its cells. -/
def read_csv (raw : List (String × List (Option String))) : Table :=
  ⟨raw.map (fun p => csvColumn p.1 p.2)⟩

/-- The spec's classification test: every non-missing raw cell parses
as an integer or floating-point number. -/
def allParse (cells : List (Option String)) : Bool :=
  (cells.filterMap id).all isFloatLit

/- ----------------------------------------------------------------
Distribution Visualizer (plot_numeric_data lines 66-79,
plot_categorical_data lines 82-95)
---------------------------------------------------------------- -/

/-- Series.dropna: the non-missing cells, in order. -/
def dropna (cells : List Value) : List Value :=
  cells.filter (fun v => !v.isMissing)

/-- df[col].nunique() (line 86): the number of distinct non-missing
values (pandas drops NaN by default). -/
def nunique (c : Column) : ℕ :=
  (dropna c.cells).dedup.length

/-- The ordering of df[col].value_counts(): first component counted at
least as often as the second. -/
def countGE (a b : Value × ℕ) : Prop :=
  b.2 ≤ a.2

instance : DecidableRel countGE :=
  fun a b => Nat.decLe b.2 a.2

instance : IsTotal (Value × ℕ) countGE :=
  ⟨fun a b => Nat.le_total b.2 a.2⟩

instance : IsTrans (Value × ℕ) countGE :=
  ⟨fun _ _ _ h1 h2 => Nat.le_trans h2 h1⟩

/-- df[col].value_counts() (line 92): each distinct non-missing value
with its frequency, ordered descending by frequency. -/
def value_counts (cells : List Value) : List (Value × ℕ) :=
  List.insertionSort countGE
    ((dropna cells).dedup.map (fun v => (v, (dropna cells).count v)))

/-- What plot_categorical_data emits for one column: a ranked frequency
chart (the countplot with its value_counts order), or the textual
too-many-unique-values notice. -/
inductive CatRender where
  | chart (bars : List (Value × ℕ))
  | notice
deriving DecidableEq, Repr

/-- The per-column body of plot_categorical_data (lines 86-95): the
notice when nunique exceeds 25, the ranked chart otherwise. -/
def renderCategorical (c : Column) : CatRender :=
  if 25 < nunique c then CatRender.notice
  else CatRender.chart (value_counts c.cells)

/-- plot_categorical_data (lines 82-95): one rendering per column of
the categorical selection, in column order. -/
def plot_categorical_data (df : Table) : List (String × CatRender) :=
  (categorical_columns df).map (fun c => (c.name, renderCategorical c))

/-- plot_numeric_data (lines 66-79): the columns that receive a
histogram + KDE figure pair, in column order. -/
def plot_numeric_data (df : Table) : List String :=
  (numeric_columns df).map (fun c => c.name)

/- ----------------------------------------------------------------
Correlation Visualizer (plot_correlation_matrix lines 98-107)
---------------------------------------------------------------- -/

/-- The numeric payload of a cell, if any. -/
def toQ : Value → Option ℚ
  | Value.num q => some q
  | _ => none

/-- One numeric column as pandas .corr sees it: each cell either a
number or missing. -/
def numCells (c : Column) : List (Option ℚ) :=
  c.cells.map toQ

/-- Keep a row only when both of its cells are present (the pairwise
complete-observation convention of DataFrame.corr). -/
def nmPair : Option ℚ × Option ℚ → Option (ℚ × ℚ)
  | (some a, some b) => some (a, b)
  | _ => none

/-- The pairwise-complete rows of two columns. -/
def paired (xs ys : List (Option ℚ)) : List (ℚ × ℚ) :=
  (xs.zip ys).filterMap nmPair

/-- The arithmetic mean of a list of rationals (0 for the empty list,
as 0/0 = 0 in ℚ). -/
def qmean (l : List ℚ) : ℚ :=
  l.sum / l.length

/-- The covariance of two equally long lists about their means (the
normalization constant cancels from the correlation, so the plain mean
of products of deviations is used). -/
def covList (xs ys : List ℚ) : ℚ :=
  qmean (List.zipWith (fun a b => (a - qmean xs) * (b - qmean ys)) xs ys)

/-- The Pearson correlation of two columns over their pairwise-complete
rows: covariance over the product of standard deviations.  A zero
denominator (zero variance or no complete rows) yields the junk value
0 where pandas shows NaN; the claims address only the nonzero-variance
entries. -/
noncomputable def pearson (xs ys : List (Option ℚ)) : ℝ :=
  let ps := paired xs ys
  let a := ps.map Prod.fst
  let b := ps.map Prod.snd
  ((covList a b : ℚ) : ℝ) /
    (Real.sqrt ((covList a a : ℚ) : ℝ) * Real.sqrt ((covList b b : ℚ) : ℝ))

/-- The i-th column of the numeric selection (a fresh empty column
beyond the end). -/
def getNumCol (df : Table) (i : ℕ) : Column :=
  (numeric_columns df).getD i ⟨(""), Dtype.float64, []⟩

/-- The non-missing numeric values of a column. -/
def nonMissingQ (c : Column) : List ℚ :=
  c.cells.filterMap toQ

/-- The variance (about the mean) of the i-th numeric column's
non-missing values. -/
def colVar (df : Table) (i : ℕ) : ℚ :=
  covList (nonMissingQ (getNumCol df i)) (nonMissingQ (getNumCol df i))

/-- Entry (i, j) of numeric_columns.corr() (line 101). -/
noncomputable def corrEntry (df : Table) (i j : ℕ) : ℝ :=
  pearson (numCells (getNumCol df i)) (numCells (getNumCol df j))

/- ----------------------------------------------------------------
Concrete inputs used to instantiate the theorems below
---------------------------------------------------------------- -/

/-- A CSV column of boolean literals (read by pandas at dtype bool). -/
def boolColRaw : List (Option String) :=
  [some ("True"), some ("False")]

/-- A one-column table whose only column is entirely empty (an empty
CSV: header present, zero data rows). -/
def emptyTable : Table :=
  ⟨[⟨("a"), Dtype.object, []⟩]⟩

/-- A numeric column with one missing cell among two rows. -/
def halfMissingCol : Column :=
  ⟨("x"), Dtype.float64, [Value.num 1, Value.missing]⟩

/-- A one-column table holding halfMissingCol. -/
def halfMissingTable : Table :=
  ⟨[halfMissingCol]⟩

/-- A table with a single text column. -/
def catOnlyTable : Table :=
  ⟨[⟨("name"), Dtype.object, [Value.str ("x")]⟩]⟩

/-- A table with one numeric and one text column. -/
def mixedTable : Table :=
  ⟨[⟨("id"), Dtype.int64, [Value.num 1, Value.num 2]⟩,
    ⟨("name"), Dtype.object, [Value.str ("u"), Value.str ("v")]⟩]⟩

/-- A boolean column, of neither plotted dtype family. -/
def flagColumn : Column :=
  ⟨("flag"), Dtype.boolDtype, [Value.boolV true]⟩

/-- A table with a boolean column alongside a numeric one. -/
def boolInTable : Table :=
  ⟨[⟨("id"), Dtype.int64, [Value.num 1]⟩, flagColumn]⟩

/-- A table whose single numeric column has the values 1 and 2
(variance 1/4). -/
def varTable : Table :=
  ⟨[⟨("x"), Dtype.int64, [Value.num 1, Value.num 2]⟩]⟩

/-- An uploaded file whose name matches neither recognized extension,
though its bytes are perfectly readable. -/
def txtFile : UploadedFile :=
  ⟨("data.txt"), Except.ok ⟨[]⟩, Except.error ("not an xlsx")⟩

/-- An uploaded CSV whose bytes fail to parse. -/
def badCsvFile : UploadedFile :=
  ⟨("a.csv"), Except.error ("bad bytes"), Except.ok []⟩

/-- A two-sheet workbook. -/
def twoSheetFile : UploadedFile :=
  ⟨("book.xlsx"), Except.error ("not a csv"),
    Except.ok [(("s1"), ⟨[]⟩), (("s2"), mixedTable)]⟩

/-- A one-sheet workbook. -/
def oneSheetFile : UploadedFile :=
  ⟨("book.xlsx"), Except.error ("not a csv"),
    Except.ok [(("only"), mixedTable)]⟩

/- ----------------------------------------------------------------
Helper lemmas
---------------------------------------------------------------- -/

/-- An integer literal is in particular a numeric literal. -/
theorem isIntLit_isFloatLit {s : String} (h : isIntLit s = true) :
    isFloatLit s = true := by
  unfold isFloatLit
  rw [h]
  rfl

/-- A column of a one-column table is in the numeric selection exactly
when its dtype is numeric. -/
theorem mem_numeric_single (c : Column) :
    c ∈ numeric_columns ⟨[c]⟩ ↔ Dtype.isNumeric c.dtype = true := by
  cases hd : c.dtype <;>
    simp [numeric_columns, select_dtypes, List.mem_filter, hd, Dtype.isNumeric]

/-- A column of a one-column table is in the categorical selection
exactly when its dtype is object or category. -/
theorem mem_categorical_single (c : Column) :
    c ∈ categorical_columns ⟨[c]⟩ ↔
      (c.dtype = Dtype.object ∨ c.dtype = Dtype.category) := by
  cases hd : c.dtype <;>
    simp [categorical_columns, select_dtypes, List.mem_filter, hd]

/- ----------------------------------------------------------------
C1 — missing percentage
---------------------------------------------------------------- -/

/-- C1 counterexample: on a table with zero rows the profile reports a
missing percentage of NaN (numpy 0/0), not 0, because line 51 divides
by len(df) with no zero-row guard. -/
theorem C1_counterexample :
    (display_basic_info emptyTable).map (fun p => p.missingPctVal) = [PFloat.nan] ∧
    PFloat.nan ≠ PFloat.val 0 := by
  decide

/-- C1 (amended): for every table and every column of it, the reported
missing percentage is missing_count / row_count * 100 when the table
has at least one row, and NaN (not 0) when it has zero rows; the
computation is total, so no exception is raised either way. -/
theorem C1_missing_pct (df : Table) (c : Column) (hmem : c ∈ df.columns)
    (hlen : c.cells.length = df.nrows) :
    profileOf df c ∈ display_basic_info df ∧
    (profileOf df c).missingPctVal =
      (if df.nrows = 0 then PFloat.nan
       else PFloat.val ((missingCount c : ℚ) / (df.nrows : ℚ) * 100)) := by
  refine ⟨List.mem_map_of_mem _ hmem, ?_⟩
  by_cases h0 : df.nrows = 0
  · have hc : missingCount c = 0 := by
      have hb := List.countP_le_length (fun v => v.isMissing) (l := c.cells)
      unfold missingCount
      omega
    simp [profileOf, missingPct, hc, h0, PFloat.fdiv, PFloat.fmul]
  · have hn : ((df.nrows : ℚ)) ≠ 0 := Nat.cast_ne_zero.mpr h0
    simp [profileOf, missingPct, PFloat.fdiv, PFloat.fmul, h0, hn]

/-- C1 witness: a two-row column with one missing cell is reported at
50 percent missing. -/
theorem C1_missing_pct_witness :
    profileOf halfMissingTable halfMissingCol ∈ display_basic_info halfMissingTable ∧
    (profileOf halfMissingTable halfMissingCol).missingPctVal = PFloat.val 50 := by
  have h := C1_missing_pct halfMissingTable halfMissingCol (by decide) (by decide)
  refine ⟨h.1, ?_⟩
  rw [h.2]
  have h1 : missingCount halfMissingCol = 1 := by decide
  have h2 : halfMissingTable.nrows = 2 := by decide
  rw [h1, h2]
  norm_num

/- ----------------------------------------------------------------
C2 — numeric / categorical classification
---------------------------------------------------------------- -/

/-- C2 counterexample: a CSV column of boolean literals has no value
that parses as a number, so the claim classifies it categorical/text
and promises it a frequency view; pandas reads it at dtype bool, which
is in neither select_dtypes list, so it receives neither a
histogram/density view nor a frequency view. -/
theorem C2_counterexample :
    allParse boolColRaw = false ∧
    inferDtype boolColRaw = Dtype.boolDtype ∧
    plot_numeric_data (read_csv [(("flag"), boolColRaw)]) = [] ∧
    plot_categorical_data (read_csv [(("flag"), boolColRaw)]) = [] := by
  decide

/-- C2 (amended): for every non-empty CSV column, the inferred dtype is
numeric if and only if every non-missing value parses as an integer or
floating-point number; a column that fails the test is charted by the
frequency plotter unless it consists of boolean literals (dtype bool),
in which case it receives neither kind of view; and a column enters the
histogram/density selection exactly when its dtype is numeric. -/
theorem C2_classification (n : String) (cells : List (Option String))
    (h : cells ≠ []) :
    (Dtype.isNumeric (inferDtype cells) = true ↔ allParse cells = true) ∧
    (allParse cells = false →
      inferDtype cells = Dtype.boolDtype ∨
        csvColumn n cells ∈ categorical_columns ⟨[csvColumn n cells]⟩) ∧
    (csvColumn n cells ∈ numeric_columns ⟨[csvColumn n cells]⟩ ↔
      Dtype.isNumeric (inferDtype cells) = true) := by
  have hne : cells.isEmpty = false := by
    cases cells with
    | nil => exact absurd rfl h
    | cons a l => rfl
  by_cases hA : ((cells.filterMap id).all isIntLit && cells.all Option.isSome) = true
  · have hd : inferDtype cells = Dtype.int64 := by
      simp only [inferDtype]
      rw [hne, if_neg Bool.false_ne_true, if_pos hA]
    have hap : allParse cells = true := by
      have h2 := hA
      rw [Bool.and_eq_true] at h2
      have h1 := h2.1
      unfold allParse
      rw [List.all_eq_true] at h1 ⊢
      exact fun x hx => isIntLit_isFloatLit (h1 x hx)
    refine ⟨by simp [hd, Dtype.isNumeric, hap], by simp [hap], ?_⟩
    rw [mem_numeric_single]
    simp [csvColumn, hd, Dtype.isNumeric]
  · by_cases hB : (cells.filterMap id).all isFloatLit = true
    · have hd : inferDtype cells = Dtype.float64 := by
        simp only [inferDtype]
        rw [hne, if_neg Bool.false_ne_true, if_neg hA, if_pos hB]
      have hap : allParse cells = true := hB
      refine ⟨by simp [hd, Dtype.isNumeric, hap], by simp [hap], ?_⟩
      rw [mem_numeric_single]
      simp [csvColumn, hd, Dtype.isNumeric]
    · have hap : allParse cells = false := by
        unfold allParse
        cases hx : (cells.filterMap id).all isFloatLit with
        | false => rfl
        | true => exact absurd hx hB
      by_cases hC : ((cells.filterMap id).all isBoolLit && cells.all Option.isSome) = true
      · have hd : inferDtype cells = Dtype.boolDtype := by
          simp only [inferDtype]
          rw [hne, if_neg Bool.false_ne_true, if_neg hA, if_neg hB, if_pos hC]
        refine ⟨by simp [hd, Dtype.isNumeric, hap], fun _ => Or.inl hd, ?_⟩
        rw [mem_numeric_single]
        simp [csvColumn, hd, Dtype.isNumeric]
      · have hd : inferDtype cells = Dtype.object := by
          simp only [inferDtype]
          rw [hne, if_neg Bool.false_ne_true, if_neg hA, if_neg hB, if_neg hC]
        refine ⟨by simp [hd, Dtype.isNumeric, hap], fun _ => Or.inr ?_, ?_⟩
        · rw [mem_categorical_single]
          simp [csvColumn, hd]
        · rw [mem_numeric_single]
          simp [csvColumn, hd, Dtype.isNumeric]

/-- C2 witness: a column holding an integer literal and a missing cell
is inferred numeric (float64) and is exactly what the test accepts. -/
theorem C2_classification_witness :
    Dtype.isNumeric (inferDtype [some ("1"), none]) = true ∧
    allParse [some ("1"), none] = true :=
  ⟨(C2_classification ("x") [some ("1"), none] (by decide)).1.mpr (by decide),
   by decide⟩

/- ----------------------------------------------------------------
C3 — Loader error handling
---------------------------------------------------------------- -/

/-- C3 counterexample: a file whose extension is neither .csv nor .xlsx
falls through both branches of load_data: the pipeline stops (no table,
no sheet list) but no error message is produced, against the claim
that every unsupported extension fails with a surfaced human-readable
cause. -/
theorem C3_counterexample :
    txtFile.name = ("data.txt") ∧
    load_data (some txtFile) = ⟨none, none, none⟩ := by
  decide

/-- C3 (amended): a failing CSV read and a failing spreadsheet read are
both caught and converted into a displayed message, with no table and
no sheet list, so the pipeline does not proceed; an unrecognized
extension also yields no table and no sheet list, but silently, with
no message (in the deployed app the upload surface only admits the two
extensions, so this path is unreachable from the UI). -/
theorem C3_load_error_paths (file : UploadedFile) :
    (∀ e, strEndsWith file.name (".csv") = true → file.csvRead = Except.error e →
      load_data (some file) = ⟨none, none, some (("Error loading file: ") ++ e)⟩) ∧
    (∀ e, strEndsWith file.name (".csv") = false → strEndsWith file.name (".xlsx") = true →
      file.xlsxRead = Except.error e →
      load_data (some file) = ⟨none, none, some (("Error loading file: ") ++ e)⟩) ∧
    (strEndsWith file.name (".csv") = false → strEndsWith file.name (".xlsx") = false →
      load_data (some file) = ⟨none, none, none⟩) := by
  refine ⟨?_, ?_, ?_⟩
  · intro e hc hr
    simp [load_data, hc, hr]
  · intro e hc hx hr
    simp [load_data, hc, hx, hr]
  · intro hc hx
    simp [load_data, hc, hx]

/-- C3 witness: an unreadable CSV produces the displayed message built
from the exception text. -/
theorem C3_load_error_paths_witness :
    load_data (some badCsvFile) =
      ⟨none, none, some (("Error loading file: ") ++ ("bad bytes"))⟩ :=
  (C3_load_error_paths badCsvFile).1 ("bad bytes") (by decide) rfl

/- ----------------------------------------------------------------
C5 — categorical cardinality guard
---------------------------------------------------------------- -/

/-- C5: every column rendered by the categorical plotter gets the
ranked frequency chart exactly when it has at most 25 distinct
non-missing values (so exactly 25 is charted), gets the textual notice
exactly when it has 26 or more, and the chart's bars are ordered
descending by count. -/
theorem C5_cardinality_guard (c : Column) :
    (renderCategorical c = CatRender.chart (value_counts c.cells) ↔ nunique c ≤ 25) ∧
    (renderCategorical c = CatRender.notice ↔ 25 < nunique c) ∧
    List.Sorted countGE (value_counts c.cells) := by
  refine ⟨?_, ?_, ?_⟩
  · by_cases h : 25 < nunique c
    · simp [renderCategorical, h]
    · simp [renderCategorical, h]
      omega
  · by_cases h : 25 < nunique c
    · simp [renderCategorical, h]
    · simp [renderCategorical, h]
  · unfold value_counts
    exact List.sorted_insertionSort countGE _

/- ----------------------------------------------------------------
C6 — spreadsheet sheet dispatch
---------------------------------------------------------------- -/

/-- C6: for a spreadsheet upload, a workbook with exactly one sheet is
parsed into its table directly with no selection step, while a
workbook with several sheets returns the ordered sheet-name list and
no table, deferring materialization until a sheet is chosen. -/
theorem C6_sheet_dispatch (name : String) (csvR : Except String Table)
    (sheets : List (String × Table))
    (hc : strEndsWith name (".csv") = false)
    (hx : strEndsWith name (".xlsx") = true) :
    (sheets.length = 1 →
      load_data (some ⟨name, csvR, Except.ok sheets⟩) =
        ⟨some (sheets.headD ((""), ⟨[]⟩)).2, none, none⟩) ∧
    (2 ≤ sheets.length →
      load_data (some ⟨name, csvR, Except.ok sheets⟩) =
        ⟨none, some (sheets.map (fun s => s.1)), none⟩) := by
  constructor
  · intro h1
    simp [load_data, hc, hx, h1]
  · intro h2
    have h1 : sheets.length ≠ 1 := by omega
    simp [load_data, hc, hx, h1]

/-- C6 witness: a one-sheet workbook loads its table immediately; a
two-sheet workbook returns the two sheet names and no table. -/
theorem C6_sheet_dispatch_witness :
    load_data (some oneSheetFile) = ⟨some mixedTable, none, none⟩ ∧
    load_data (some twoSheetFile) = ⟨none, some [("s1"), ("s2")], none⟩ := by
  constructor
  · exact (C6_sheet_dispatch ("book.xlsx") (Except.error ("not a csv"))
      [(("only"), mixedTable)] (by decide) (by decide)).1 (by decide)
  · exact (C6_sheet_dispatch ("book.xlsx") (Except.error ("not a csv"))
      [(("s1"), ⟨[]⟩), (("s2"), mixedTable)] (by decide) (by decide)).2 (by decide)

/- ----------------------------------------------------------------
C7 — summary statistics column coverage
---------------------------------------------------------------- -/

/-- C7 counterexample: on a table with no numeric column, df.describe()
falls back to describing every column, so the categorical column is
not excluded from the summary statistics. -/
theorem C7_counterexample :
    describe catOnlyTable = catOnlyTable.columns ∧
    (∃ c ∈ describe catOnlyTable, Dtype.isNumeric c.dtype = false) := by
  decide

/-- C7 (amended): whenever the table has at least one numeric column,
the summary statistics cover exactly the numeric columns (so every
categorical column is excluded), while the per-column profile list
always covers every column by name; only a table with no numeric
column at all falls back to describing all of its columns. -/
theorem C7_describe_numeric (df : Table) (h : numeric_columns df ≠ []) :
    describe df = numeric_columns df ∧
    (∀ c ∈ describe df, Dtype.isNumeric c.dtype = true) ∧
    (display_basic_info df).map (fun p => p.name) = df.columns.map (fun c => c.name) := by
  refine ⟨by simp [describe, h], ?_, ?_⟩
  · intro c hc
    rw [describe, if_neg h] at hc
    rw [numeric_columns, select_dtypes, List.mem_filter] at hc
    have h2 := hc.2
    simp only [List.mem_cons, List.not_mem_nil, or_false, decide_eq_true_eq] at h2
    rcases h2 with h2 | h2 <;> rw [h2] <;> rfl
  · rw [display_basic_info, List.map_map]
    rfl

/-- C7 witness: in a table with one numeric and one text column, the
summary statistics cover exactly the numeric column. -/
theorem C7_describe_numeric_witness :
    describe mixedTable = [⟨("id"), Dtype.int64, [Value.num 1, Value.num 2]⟩] :=
  ((C7_describe_numeric mixedTable (by decide)).1).trans (by decide)

/- ----------------------------------------------------------------
C9 — load_data returns at most one non-empty result
---------------------------------------------------------------- -/

/-- C9: every call to load_data yields no table or no sheet list (never
both non-empty), and an absent file yields neither, with no message
(the awaiting-input state). -/
theorem C9_exclusive (f : Option UploadedFile) :
    ((load_data f).df = none ∨ (load_data f).sheetNames = none) ∧
    load_data none = ⟨none, none, none⟩ := by
  refine ⟨?_, rfl⟩
  cases f with
  | none => exact Or.inl rfl
  | some file =>
    by_cases hc : strEndsWith file.name (".csv") = true
    · cases hcsv : file.csvRead with
      | ok t => simp [load_data, hc, hcsv]
      | error e => simp [load_data, hc, hcsv]
    · by_cases hx : strEndsWith file.name (".xlsx") = true
      · cases hxl : file.xlsxRead with
        | ok sheets =>
          by_cases h1 : sheets.length = 1
          · simp [load_data, hc, hx, hxl, h1]
          · simp [load_data, hc, hx, hxl, h1]
        | error e => simp [load_data, hc, hx, hxl]
      · simp [load_data, hc, hx]

/- ----------------------------------------------------------------
C10 — columns of neither plotted dtype family
---------------------------------------------------------------- -/

/-- C10: a column whose dtype is neither of the numeric dtypes selected
for plotting nor of the categorical dtypes selected for plotting (for
example a bool or datetime64 column) is excluded from the numeric
selection (hence from the histogram/density figures and from the
correlation matrix, both of which select exactly these columns) and
from the categorical selection (hence from the frequency charts),
while its name still appears in the per-column profile list. -/
theorem C10_unplotted_dtypes (df : Table) (c : Column) (hmem : c ∈ df.columns)
    (hnum : Dtype.isNumeric c.dtype = false)
    (hobj : c.dtype ≠ Dtype.object) (hcat : c.dtype ≠ Dtype.category) :
    c ∉ numeric_columns df ∧ c ∉ categorical_columns df ∧
    c.name ∈ (display_basic_info df).map (fun p => p.name) := by
  refine ⟨?_, ?_, ?_⟩
  · intro hc
    rw [numeric_columns, select_dtypes, List.mem_filter] at hc
    have h2 := hc.2
    simp only [List.mem_cons, List.not_mem_nil, or_false, decide_eq_true_eq] at h2
    rcases h2 with h2 | h2 <;> rw [h2] at hnum <;> exact absurd hnum (by decide)
  · intro hc
    rw [categorical_columns, select_dtypes, List.mem_filter] at hc
    have h2 := hc.2
    simp only [List.mem_cons, List.not_mem_nil, or_false, decide_eq_true_eq] at h2
    rcases h2 with h2 | h2
    · exact hobj h2
    · exact hcat h2
  · rw [display_basic_info, List.map_map]
    exact List.mem_map_of_mem _ hmem

/-- C10 witness: the bool column of a table with one numeric and one
bool column is in neither plotting selection but is profiled. -/
theorem C10_unplotted_dtypes_witness :
    flagColumn ∉ numeric_columns boolInTable ∧
    flagColumn ∉ categorical_columns boolInTable ∧
    flagColumn.name ∈ (display_basic_info boolInTable).map (fun p => p.name) :=
  C10_unplotted_dtypes boolInTable flagColumn (by decide) (by decide)
    (by decide) (by decide)

/- ----------------------------------------------------------------
C8 — correlation matrix symmetry and unit diagonal
---------------------------------------------------------------- -/

/-- Pairing a column with itself keeps exactly its non-missing values,
each paired with itself. -/
theorem paired_self (xs : List (Option ℚ)) :
    paired xs xs = (xs.filterMap id).map (fun a => (a, a)) := by
  induction xs with
  | nil => rfl
  | cons x xs ih =>
    cases x with
    | none => simpa [paired, List.filterMap_cons, nmPair] using ih
    | some a => simpa [paired, List.filterMap_cons, nmPair] using ih

/-- First projection of the self-pairing: the non-missing values. -/
theorem fst_paired_self (xs : List (Option ℚ)) :
    (paired xs xs).map Prod.fst = xs.filterMap id := by
  rw [paired_self, List.map_map]
  have h : (Prod.fst ∘ fun a : ℚ => (a, a)) = id := rfl
  rw [h, List.map_id]

/-- Second projection of the self-pairing: the non-missing values. -/
theorem snd_paired_self (xs : List (Option ℚ)) :
    (paired xs xs).map Prod.snd = xs.filterMap id := by
  rw [paired_self, List.map_map]
  have h : (Prod.snd ∘ fun a : ℚ => (a, a)) = id := rfl
  rw [h, List.map_id]

/-- Pairing in the opposite order swaps every pair. -/
theorem paired_swap (xs ys : List (Option ℚ)) :
    paired ys xs = (paired xs ys).map Prod.swap := by
  unfold paired
  rw [← List.zip_swap xs ys, List.filterMap_map, List.map_filterMap]
  congr 1
  funext p
  cases p with
  | mk a b => cases a <;> cases b <;> rfl

/-- Covariance is symmetric in its two lists. -/
theorem covList_comm (xs ys : List ℚ) : covList xs ys = covList ys xs := by
  unfold covList
  rw [List.zipWith_comm]
  congr 1
  congr 1
  funext b a
  ring

/-- Pearson correlation is symmetric in its two columns. -/
theorem pearson_comm (xs ys : List (Option ℚ)) :
    pearson xs ys = pearson ys xs := by
  unfold pearson
  rw [paired_swap xs ys]
  simp only [List.map_map]
  have h1 : (Prod.fst ∘ Prod.swap) = (Prod.snd : ℚ × ℚ → ℚ) := rfl
  have h2 : (Prod.snd ∘ Prod.swap) = (Prod.fst : ℚ × ℚ → ℚ) := rfl
  rw [h1, h2, covList_comm ((paired xs ys).map Prod.snd) ((paired xs ys).map Prod.fst),
    mul_comm]

/-- The non-missing values of a column, through the corr view. -/
theorem numCells_filterMap (c : Column) :
    (numCells c).filterMap id = nonMissingQ c := by
  unfold numCells nonMissingQ
  rw [List.filterMap_map]
  rfl

/-- A column correlates with itself at exactly 1 whenever the variance
of its non-missing values is nonzero. -/
theorem pearson_self (xs : List (Option ℚ))
    (h : 0 < covList (xs.filterMap id) (xs.filterMap id)) :
    pearson xs xs = 1 := by
  simp only [pearson]
  rw [fst_paired_self, snd_paired_self]
  have hpos : (0 : ℝ) < ((covList (xs.filterMap id) (xs.filterMap id) : ℚ) : ℝ) := by
    exact_mod_cast h
  rw [Real.mul_self_sqrt (le_of_lt hpos)]
  exact div_self (ne_of_gt hpos)

/-- C8: the correlation matrix over the numeric columns is symmetric —
entry (i, j) always equals entry (j, i) — and its diagonal entry for
any column with nonzero variance equals 1. -/
theorem C8_corr_matrix (df : Table) (i j : ℕ) :
    corrEntry df i j = corrEntry df j i ∧
    (0 < colVar df i → corrEntry df i i = 1) := by
  constructor
  · exact pearson_comm _ _
  · intro h
    unfold corrEntry
    apply pearson_self
    unfold colVar at h
    rwa [numCells_filterMap]

/-- C8 witness: in a table whose numeric column holds 1 and 2, the
variance is positive and the diagonal correlation entry is 1. -/
theorem C8_corr_matrix_witness :
    0 < colVar varTable 0 ∧ corrEntry varTable 0 0 = 1 := by
  have h1 : nonMissingQ (getNumCol varTable 0) = [1, 2] := by decide
  have hv : (0 : ℚ) < colVar varTable 0 := by
    simp [colVar, h1, covList, qmean]
    norm_num
  exact ⟨hv, (C8_corr_matrix varTable 0 0).2 hv⟩
